import Mathlib

set_option autoImplicit false

/-!
Shallow embedding of the call-test orchestration core of the voxhog
repository (src/voxhog/voice_testing/test_runner.py and
src/voxhog/voice_testing/testing_server.py), together with theorems
settling the behavioural claims about it.

The Python orchestrator keeps a dictionary `call_completion_futures`
mapping a Twilio call SID to an `asyncio.Future`; the FastAPI gateway
enqueues provider callbacks on `callback_queue`, and the single consumer
task `_post_callback_consumer` resolves futures.  Dictionaries over
string keys are embedded as insertion-ordered association lists, futures
as a two-state value (pending / resolved with its payload), and the
consumer loop body as a pure step function from table and callback data
to the new table plus the action taken (resolve, duplicate warning, or
unknown-id warning).

The test-driving side (`run_test_case` / `run_all_tests`) is embedded as
a function of an environment describing how the external world responds
to one test case (whether the agent-connection phase raises, whether the
call-initiation block yields a call SID or raises, and whether a
completion callback ever resolves the registered future).  Its value is
the outcome of the coroutine (normal return, exception propagated, or
non-termination of the completion poll loop) together with the ordered
trace of orchestration events it performs, which the run-level driver
tags with the index of the test case.
-/

namespace VoxHog

/-- One transcript message, as produced by `agent.get_transcript()` and
consumed by `save_report` (`msg.role`, `msg.content`). -/
structure Msg where
  role : String
  content : String
  deriving DecidableEq, Repr

/-- The payload stored into a completion future by
`_post_callback_consumer`: the dictionary
`{"transcript": ..., "recording_url": ...}` (test_runner.py lines
369-372).  `recording_url` already carries the default string applied
by `callback_data.get('RecordingUrl', ...)`. -/
structure EvaluationData where
  transcript : List Msg
  recording_url : String
  deriving DecidableEq, Repr

/-- State of one `asyncio.Future` in `call_completion_futures`: either
still pending (`done()` is false) or resolved with the evaluation-data
payload set by `set_result`. -/
inductive FutureState
  | pending
  | resolved (data : EvaluationData)
  deriving DecidableEq, Repr

/-- The correlation table `self.call_completion_futures : Dict[str,
asyncio.Future]`, embedded as an insertion-ordered association list. -/
abbrev CorrTable := List (String × FutureState)

/-- Dictionary lookup (`futures[k]` / `k in futures`). -/
def dictLookup : CorrTable → String → Option FutureState
  | [], _ => none
  | (k, v) :: rest, key => if k = key then some v else dictLookup rest key

/-- Dictionary assignment (`futures[k] = v`): replaces the value at an
existing key, otherwise appends the binding. -/
def dictSet : CorrTable → String → FutureState → CorrTable
  | [], key, v => [(key, v)]
  | (k, w) :: rest, key, v =>
    if k = key then (k, v) :: rest else (k, w) :: dictSet rest key v

/-- Form data delivered by Twilio to the `/callback` endpoint and
enqueued verbatim on `callback_queue`.  The consumer reads the keys
`CallSid` and `RecordingUrl` with `.get`, so both are optional. -/
structure CallbackData where
  CallSid : Option String
  RecordingUrl : Option String
  deriving DecidableEq, Repr

/-- Observable action taken by one iteration of
`_post_callback_consumer`: the future was resolved, or a warning was
logged for an already-completed future, or a warning was logged for an
unknown (or absent) call SID. -/
inductive ConsumerAction
  | resolvedCall (call_sid : String)
  | duplicateWarning (call_sid : String)
  | unknownWarning (call_sid : Option String)
  deriving DecidableEq, Repr

/-- Embeds one iteration of `VoiceTestRunner._post_callback_consumer`
(test_runner.py lines 358-379) applied to one dequeued `callback_data`.
`agent_transcript` stands for the value `self.agent.get_transcript()`
returns at that moment.  The Python code: `call_sid =
callback_data.get('CallSid')`; if `call_sid` is a key of
`call_completion_futures` and the future is not `done()`, build the
evaluation data and `set_result` it; if it is already done, log a
warning; if the key is absent (including `call_sid is None`), log an
unknown-SID warning.  No branch raises. -/
def post_callback_consumer_step (futures : CorrTable) (agent_transcript : List Msg)
    (callback_data : CallbackData) : CorrTable × ConsumerAction :=
  match callback_data.CallSid with
  | none => (futures, ConsumerAction.unknownWarning none)
  | some call_sid =>
    match dictLookup futures call_sid with
    | some FutureState.pending =>
      let evaluation_data : EvaluationData :=
        { transcript := agent_transcript,
          recording_url := callback_data.RecordingUrl.getD "No recording URL available" }
      (dictSet futures call_sid (FutureState.resolved evaluation_data),
        ConsumerAction.resolvedCall call_sid)
    | some (FutureState.resolved _) =>
      (futures, ConsumerAction.duplicateWarning call_sid)
    | none => (futures, ConsumerAction.unknownWarning (some call_sid))

/-- Embeds the registration of a correlation entry,
`self.call_completion_futures[call_sid] = asyncio.Future()`
(test_runner.py line 208).  The result is wrapped in `Except String` to
record whether the statement raises: it is a plain dictionary
assignment, so it always succeeds, unconditionally overwriting any
entry already stored under `call_sid` with a fresh pending future. -/
def register_call (futures : CorrTable) (call_sid : String) : Except String CorrTable :=
  Except.ok (dictSet futures call_sid FutureState.pending)

/-- A test scenario (test_components.py class Scenario). -/
structure Scenario where
  name : String
  prompt : String
  deriving DecidableEq, Repr

/-- A user persona (test_components.py class UserPersona). -/
structure UserPersona where
  name : String
  prompt : String
  deriving DecidableEq, Repr

/-- One per-metric evaluation produced by the external evaluator
(voice_agent_evaluation.py VoiceAgentEvaluation: fields `name`,
`result`, `reason`; `result` is intended to be the string "pass" or
"fail" but is not constrained by the code). -/
structure EvalResult where
  name : String
  result : String
  reason : String
  deriving DecidableEq, Repr

/-- Behaviour of `test_case.evaluator.evaluate_voice_conversation` as
observed by `evaluate_test_case`: the response carries an
`evaluations` attribute, or lacks one (hasattr fails), or the call
raises. -/
inductive EvaluatorBehavior
  | returnsEvaluations (evaluations : List EvalResult)
  | responseWithoutEvaluations
  | raisesError (msg : String)
  deriving DecidableEq, Repr

/-- A test case (test_components.py class TestCase): name, scenario,
persona, and an optional evaluator (`none` embeds a falsy/absent
evaluator attribute). -/
structure TestCase where
  name : String
  scenario : Scenario
  user_persona : UserPersona
  evaluator : Option EvaluatorBehavior
  deriving DecidableEq, Repr

/-- The per-test-case results dictionary built by `evaluate_test_case`
(test_runner.py lines 78-109) and extended with `recording_url` by
`run_test_case` (line 224).  The constant `metrics_results: {}` field
of the Python dictionary is omitted as it is never written again. -/
structure TestCaseResults where
  test_case : String
  scenario : String
  transcript : List Msg
  evaluator_results : List EvalResult
  recording_url : Option String
  deriving DecidableEq, Repr

/-- Embeds `VoiceTestRunner.evaluate_test_case` (test_runner.py lines
74-109).  The results dictionary is initialized with the transcript
taken from `evaluation_data` and empty `evaluator_results`; the
evaluator is then invoked inside try/except: a response with an
`evaluations` attribute overwrites `evaluator_results`, a response
without one logs a warning and stores `[]`, an absent evaluator stores
`[]`, and a raised exception is caught and stores `[]`.  Every branch
returns normally. -/
def evaluate_test_case (test_case : TestCase) (evaluation_data : EvaluationData) :
    TestCaseResults :=
  let evaluator_results :=
    match test_case.evaluator with
    | none => []
    | some (EvaluatorBehavior.returnsEvaluations evaluations) => evaluations
    | some EvaluatorBehavior.responseWithoutEvaluations => []
    | some (EvaluatorBehavior.raisesError _) => []
  { test_case := test_case.name,
    scenario := test_case.scenario.name,
    transcript := evaluation_data.transcript,
    evaluator_results := evaluator_results,
    recording_url := none }

/-- Environment describing how the external world responds to one
execution of `run_test_case` (test_runner.py lines 155-244):
`connect_error` is the exception message if the agent-connection phase
(`initialize_connection` / `set_persona_and_scenario` /
`reset_transcript_handler`) raises; `call_setup` is the outcome of the
direction-dependent call-initiation block (a call SID, or the message
of the exception it raises — missing phone number, missing SID, agent
API failure, or the 60s SID-queue timeout); `completion` tells whether
the completion callback consumer ever resolves the registered future,
and with which payload. -/
structure CaseEnv where
  connect_error : Option String
  call_setup : Except String String
  completion : Option EvaluationData
  deriving Repr

/-- Orchestration events performed by `run_test_case`, in program
order: the agent-connection phase, entry into the call-initiation
block (the call request), registration of the completion future,
resolution of the future, evaluation, and the `finally` block's
`self.agent.disconnect()`. -/
inductive Ev
  | connectAgent
  | callSetup
  | registerFuture (call_sid : String)
  | futureResolved (call_sid : String)
  | evaluateCase
  | disconnect
  deriving DecidableEq, Repr

/-- Outcome of one `run_test_case` coroutine: a normal return with its
results, an exception propagated to the caller (the `except` block
logs and re-raises), or non-termination: when the registered future is
never resolved, the poll loop `while not
self.call_completion_futures[call_sid].done(): await asyncio.sleep(1)`
(lines 214-215) never exits — the `asyncio.wait_for` with a timeout is
commented out and `asyncio.sleep` never raises `TimeoutError`, so the
`except asyncio.TimeoutError` handler (lines 230-235) is
unreachable. -/
inductive Outcome
  | ok (results : TestCaseResults)
  | raised (msg : String)
  | hangs
  deriving DecidableEq, Repr

/-- True on a normal return. -/
def Outcome.isOk : Outcome → Bool
  | Outcome.ok _ => true
  | _ => false

/-- Embeds `VoiceTestRunner.run_test_case` (test_runner.py lines
155-244) as a function of the environment: the try body connects the
agent, runs the call-initiation block, registers the completion future
for the obtained SID, polls the future until it is done, then
evaluates and attaches the recording URL; the except block re-raises;
the finally block disconnects the agent, so `Ev.disconnect` is emitted
on every terminating path and never on the hanging path. -/
def run_test_case (test_case : TestCase) (env : CaseEnv) : Outcome × List Ev :=
  match env.connect_error with
  | some msg => (Outcome.raised msg, [Ev.connectAgent, Ev.disconnect])
  | none =>
    match env.call_setup with
    | Except.error msg =>
      (Outcome.raised msg, [Ev.connectAgent, Ev.callSetup, Ev.disconnect])
    | Except.ok call_sid =>
      match env.completion with
      | none =>
        (Outcome.hangs, [Ev.connectAgent, Ev.callSetup, Ev.registerFuture call_sid])
      | some evaluation_data =>
        let results := evaluate_test_case test_case evaluation_data
        (Outcome.ok { results with recording_url := some evaluation_data.recording_url },
          [Ev.connectAgent, Ev.callSetup, Ev.registerFuture call_sid,
            Ev.futureResolved call_sid, Ev.evaluateCase, Ev.disconnect])

/-- Outcome of `run_all_tests` (test_runner.py lines 257-270): the
loop finished and `self.results` holds the listed entries; or a test
case raised and the exception propagated out (the loop body is guarded
only by `try ... finally: pass`), leaving `self.results` as listed; or
a test case hung in the completion poll loop. -/
inductive RunOutcome
  | finished (results : List TestCaseResults)
  | aborted (results : List TestCaseResults) (msg : String)
  | hung (results : List TestCaseResults)
  deriving DecidableEq, Repr

/-- Prepend a collected result to the run outcome's results list. -/
def RunOutcome.consResult (r : TestCaseResults) : RunOutcome → RunOutcome
  | RunOutcome.finished rs => RunOutcome.finished (r :: rs)
  | RunOutcome.aborted rs msg => RunOutcome.aborted (r :: rs) msg
  | RunOutcome.hung rs => RunOutcome.hung (r :: rs)

/-- The `self.results` list visible in the runner after the run. -/
def RunOutcome.results : RunOutcome → List TestCaseResults
  | RunOutcome.finished rs => rs
  | RunOutcome.aborted rs _ => rs
  | RunOutcome.hung rs => rs

/-- Driver of the `for test_case in self.test_cases` loop of
`run_all_tests`, with `k` the index of the next test case; each test
case's events are tagged with its index so the run trace records which
test case performed which event, in order. -/
def run_all_tests_aux : Nat → List (TestCase × CaseEnv) → RunOutcome × List (Nat × Ev)
  | _, [] => (RunOutcome.finished [], [])
  | k, (test_case, env) :: rest =>
    match run_test_case test_case env with
    | (Outcome.ok r, tr) =>
      let next := run_all_tests_aux (k + 1) rest
      (RunOutcome.consResult r next.1, tr.map (fun e => (k, e)) ++ next.2)
    | (Outcome.raised msg, tr) => (RunOutcome.aborted [] msg, tr.map (fun e => (k, e)))
    | (Outcome.hangs, tr) => (RunOutcome.hung [], tr.map (fun e => (k, e)))

/-- Embeds `VoiceTestRunner.run_all_tests` (test_runner.py lines
257-270): runs the registered test cases strictly in order, appending
each successful result to `self.results`; an exception from
`run_test_case` propagates (aborting the loop), and a hanging test
case never yields control back. -/
def run_all_tests (cases : List (TestCase × CaseEnv)) : RunOutcome × List (Nat × Ev) :=
  run_all_tests_aux 0 cases

/-- The report dictionary of `generate_test_report` (test_runner.py
lines 282-291). -/
structure Report where
  total_tests : Nat
  completed_tests : Nat
  results : List TestCaseResults
  deriving DecidableEq, Repr

/-- Embeds `VoiceTestRunner.generate_test_report`. -/
def generate_test_report (test_cases : List TestCase) (results : List TestCaseResults) :
    Report :=
  { total_tests := test_cases.length,
    completed_tests := results.length,
    results := results }

/-- Specification-side characterization used to state the corrected
form of the report-completeness claim: the results of the maximal
leading run of test cases whose execution returns normally.  A test
case that raises or hangs contributes no entry and cuts the list. -/
def successful_head_results : List (TestCase × CaseEnv) → List TestCaseResults
  | [] => []
  | (test_case, env) :: rest =>
    match (run_test_case test_case env).1 with
    | Outcome.ok r => r :: successful_head_results rest
    | _ => []

/-- Embeds `TestingServer.setup_ngrok` (testing_server.py lines
62-78) as a function of the outcome of `ngrok.connect(8765)`: on
success the public URL (with the http scheme upgraded to https) is
stored and returned; a raised exception is caught, logged, and `None`
is returned. -/
def setup_ngrok (ngrok_connect : Except String String) : Option String :=
  match ngrok_connect with
  | Except.ok public_url => some (public_url.replace "http://" "https://")
  | Except.error _ => none

/-- The runner state produced by a successful `VoiceTestRunner.__init__`. -/
structure RunnerInit where
  base_url : String
  deriving DecidableEq, Repr

/-- Embeds `VoiceTestRunner.__init__` (test_runner.py lines 42-47): it
calls `setup_ngrok` and raises a RuntimeError with the recorded
message when no base URL was obtained, before starting the server
thread or accepting any test case. -/
def voice_test_runner_init (ngrok_connect : Except String String) :
    Except String RunnerInit :=
  match setup_ngrok ngrok_connect with
  | none =>
    Except.error "Failed to establish ngrok tunnel during initialization. Cannot proceed."
  | some base_url => Except.ok { base_url := base_url }

/-- Constructing the runner and then running all test cases: when
`__init__` raises, no runner exists and no test case can execute, so
the whole run aborts with the initialization error. -/
def init_and_run_all (ngrok_connect : Except String String)
    (cases : List (TestCase × CaseEnv)) :
    Except String (RunnerInit × (RunOutcome × List (Nat × Ev))) :=
  match voice_test_runner_init ngrok_connect with
  | Except.error msg => Except.error msg
  | Except.ok st => Except.ok (st, run_all_tests cases)

/-- The loop body of the evaluation tally of `save_report`
(test_runner.py lines 315-322): appends the rendered evaluation line
and bumps the pass count or the fail count via if/elif on the `result`
string, so any other verdict increments neither. -/
def tally_step (acc : Nat × Nat × List String) (eval_result : EvalResult) :
    Nat × Nat × List String :=
  let eval_text := eval_result.name ++ ": " ++ eval_result.result ++ " - " ++
    eval_result.reason
  if eval_result.result = "pass" then (acc.1 + 1, acc.2.1, acc.2.2 ++ [eval_text])
  else if eval_result.result = "fail" then (acc.1, acc.2.1 + 1, acc.2.2 ++ [eval_text])
  else (acc.1, acc.2.1, acc.2.2 ++ [eval_text])

/-- The single pass of `save_report` over one result's
`evaluator_results`, starting from zero counts. -/
def tally_evaluations (evaluator_results : List EvalResult) : Nat × Nat × List String :=
  evaluator_results.foldl tally_step (0, 0, [])

/-- Rounding to the nearest integer with ties to even, the rounding
rule of Python float formatting, on exact rationals. -/
def round_half_even (q : ℚ) : ℤ :=
  let f := Int.floor q
  let r := q - f
  if r < (1 : ℚ) / 2 then f
  else if (1 : ℚ) / 2 < r then f + 1
  else if f % 2 = 0 then f else f + 1

/-- Fixed two-decimal rendering of a nonnegative rational, the
idealization of the Python format specifier `:.2f` (the Python code
formats a binary float; on the values the claims constrain — in
particular the guarded value 0 — the two agree exactly). -/
def format_fixed2 (q : ℚ) : String :=
  let hundredths := (round_half_even (q * 100)).toNat
  let whole := hundredths / 100
  let frac := hundredths % 100
  toString whole ++ "." ++ (if frac < 10 then "0" ++ toString frac else toString frac)

/-- The `pass_rate` field of a report row (test_runner.py line 343):
the percentage is computed only when `pass_count + fail_count > 0`,
otherwise the literal value 0 is formatted, avoiding a division by
zero. -/
def pass_rate_str (pass_count fail_count : Nat) : String :=
  format_fixed2
    (if pass_count + fail_count > 0 then
      (pass_count : ℚ) / ((pass_count : ℚ) + (fail_count : ℚ)) * 100
    else 0) ++ "%"

/-- One row of the report written by `save_report` (test_runner.py
lines 335-345; the JSON variant in
src/server/voxhog/voice_testing/test_runner.py builds the same counts
and pass rate). -/
structure ReportRow where
  test_name : String
  test_description : String
  transcript : String
  evaluations : String
  pass_count : Nat
  fail_count : Nat
  total_evaluations : Nat
  pass_rate : String
  recording_url : String
  deriving DecidableEq, Repr

/-- Embeds the per-result row construction of
`VoiceTestRunner.save_report` (test_runner.py lines 309-347): tally
the evaluator results, render the transcript, look up the scenario
prompt of the first test case with a matching name, and assemble the
row. -/
def save_report_row (test_cases : List TestCase) (result : TestCaseResults) : ReportRow :=
  let t := tally_evaluations result.evaluator_results
  let pass_count := t.1
  let fail_count := t.2.1
  let evaluations_text := t.2.2
  let transcript_text :=
    String.intercalate "\n" (result.transcript.map (fun msg => msg.role ++ ": " ++ msg.content))
  let test_description :=
    ((test_cases.find? (fun test_case => test_case.name == result.test_case)).map
      (fun test_case => test_case.scenario.prompt)).getD "No description available"
  { test_name := result.test_case,
    test_description := test_description,
    transcript := transcript_text,
    evaluations := String.intercalate "\n" evaluations_text,
    pass_count := pass_count,
    fail_count := fail_count,
    total_evaluations := pass_count + fail_count,
    pass_rate := pass_rate_str pass_count fail_count,
    recording_url := result.recording_url.getD "No recording URL available" }

/-- Embeds the row loop of `save_report`: one row per entry of
`self.results`, in order. -/
def save_report (test_cases : List TestCase) (results : List TestCaseResults) :
    List ReportRow :=
  results.map (save_report_row test_cases)

/-! Concrete data used by counterexamples and witnesses. -/

/-- Concrete resolved payload used in witness statements. -/
def sampleData : EvaluationData :=
  { transcript := [{ role := "assistant", content := "hello" }],
    recording_url := "r1.wav" }

/-- Concrete table holding one already-resolved entry. -/
def resolvedTable : CorrTable := [("CA123", FutureState.resolved sampleData)]

/-- A duplicate completion callback for the already-resolved id. -/
def duplicateCallback : CallbackData :=
  { CallSid := some "CA123", RecordingUrl := some "r2.wav" }

/-- A completion callback whose id has no registered entry. -/
def unknownCallback : CallbackData :=
  { CallSid := some "CA999", RecordingUrl := none }

/-- A concrete test case with no evaluator. -/
def bookingCase : TestCase :=
  { name := "Booking",
    scenario := { name := "book", prompt := "Book a table" },
    user_persona := { name := "Alice", prompt := "polite caller" },
    evaluator := none }

/-- A second concrete test case. -/
def rescheduleCase : TestCase :=
  { name := "Reschedule",
    scenario := { name := "reschedule", prompt := "Move the booking" },
    user_persona := { name := "Bob", prompt := "hurried caller" },
    evaluator := none }

/-- Environment of a test case that completes normally. -/
def envCompletes : CaseEnv :=
  { connect_error := none,
    call_setup := Except.ok "CA123",
    completion := some sampleData }

/-- Environment of a second test case that completes normally. -/
def envCompletesToo : CaseEnv :=
  { connect_error := none,
    call_setup := Except.ok "CA124",
    completion := some sampleData }

/-- Environment of a test case whose agent-connection phase raises. -/
def envConnectFails : CaseEnv :=
  { connect_error := some "agent connection failed",
    call_setup := Except.ok "CA125",
    completion := some sampleData }

/-- Environment of a test case whose completion callback never
arrives. -/
def envNoCallback : CaseEnv :=
  { connect_error := none,
    call_setup := Except.ok "CA126",
    completion := none }

/-- A concrete result whose only evaluator verdict is neither "pass"
nor "fail". -/
def otherVerdictResult : TestCaseResults :=
  { test_case := "Booking",
    scenario := "book",
    transcript := [{ role := "user", content := "hi" }],
    evaluator_results := [{ name := "politeness", result := "unknown", reason := "n/a" }],
    recording_url := none }

/-- A concrete test case whose evaluator raises during evaluation. -/
def failingEvaluatorCase : TestCase :=
  { name := "Cancel",
    scenario := { name := "cancel", prompt := "Cancel the booking" },
    user_persona := { name := "Cara", prompt := "terse caller" },
    evaluator := some (EvaluatorBehavior.raisesError "LLM call failed") }

end VoxHog

namespace VoxHog

/-- C1: for every registered call identifier, resolution succeeds at
most once: when a completion callback arrives for a call identifier
whose future is already resolved, the consumer leaves the table (and so
the stored result) unchanged and merely logs a duplicate warning; no
branch raises. -/
theorem duplicate_callback_is_noop (futures : CorrTable) (agent_transcript : List Msg)
    (callback_data : CallbackData) (call_sid : String) (data : EvaluationData)
    (hsid : callback_data.CallSid = some call_sid)
    (hres : dictLookup futures call_sid = some (FutureState.resolved data)) :
    post_callback_consumer_step futures agent_transcript callback_data =
      (futures, ConsumerAction.duplicateWarning call_sid) := by
  simp [post_callback_consumer_step, hsid, hres]

/-- Witness for C1 at a concrete resolved table and duplicate callback. -/
theorem duplicate_callback_is_noop_witness :
    duplicateCallback.CallSid = some "CA123" ∧
    dictLookup resolvedTable "CA123" = some (FutureState.resolved sampleData) ∧
    post_callback_consumer_step resolvedTable [] duplicateCallback =
      (resolvedTable, ConsumerAction.duplicateWarning "CA123") :=
  ⟨rfl, rfl, duplicate_callback_is_noop resolvedTable [] duplicateCallback "CA123" sampleData rfl rfl⟩

/-- C6: a completion callback whose call identifier has no registered
correlation entry (for example one arriving after the orchestrator gave
up on the call) is dropped: the consumer logs an unknown-SID warning,
returns the table unchanged (no entry created or modified), and does
not raise. -/
theorem unknown_call_id_dropped (futures : CorrTable) (agent_transcript : List Msg)
    (callback_data : CallbackData) (call_sid : String)
    (hsid : callback_data.CallSid = some call_sid)
    (hnone : dictLookup futures call_sid = none) :
    post_callback_consumer_step futures agent_transcript callback_data =
      (futures, ConsumerAction.unknownWarning (some call_sid)) := by
  simp [post_callback_consumer_step, hsid, hnone]

/-- Witness for C6 at a concrete table and unregistered callback id. -/
theorem unknown_call_id_dropped_witness :
    unknownCallback.CallSid = some "CA999" ∧
    dictLookup resolvedTable "CA999" = none ∧
    post_callback_consumer_step resolvedTable [] unknownCallback =
      (resolvedTable, ConsumerAction.unknownWarning (some "CA999")) :=
  ⟨rfl, rfl, unknown_call_id_dropped resolvedTable [] unknownCallback "CA999" rfl rfl⟩

/-- Counterexample to C5: registering a correlation entry for a call
identifier that already has an unresolved (pending) entry does not fail
with a DuplicateCallId error: line 208 of test_runner.py is a plain
dictionary assignment with no duplicate check, so registration
succeeds, replacing the stored future with a fresh pending one. -/
theorem register_existing_id_no_error :
    register_call [("CA123", FutureState.pending)] "CA123" =
      Except.ok [("CA123", FutureState.pending)] := rfl

/-- C5 as amended: registering a correlation entry never fails, whether
or not an entry for the identifier already exists; afterwards an
unresolved (pending) future is registered under that identifier,
overwriting any previous entry. -/
theorem register_always_succeeds (futures : CorrTable) (call_sid : String) :
    ∃ futures', register_call futures call_sid = Except.ok futures' ∧
      dictLookup futures' call_sid = some FutureState.pending := by
  refine ⟨dictSet futures call_sid FutureState.pending, rfl, ?_⟩
  induction futures with
  | nil => simp [dictSet, dictLookup]
  | cons kv rest ih =>
    by_cases h : kv.1 = call_sid
    · simp [dictSet, dictLookup, h]
    · simp [dictSet, dictLookup, h, ih]

/-- Prepending a result to a run outcome prepends it to the results
list. -/
theorem RunOutcome.results_consResult (r : TestCaseResults) (o : RunOutcome) :
    (RunOutcome.consResult r o).results = r :: o.results := by
  cases o <;> rfl

/-- The results collected by the test loop, from any starting index,
are exactly the results of the maximal leading run of normally
returning test cases. -/
theorem run_all_tests_aux_results (cases : List (TestCase × CaseEnv)) (k : Nat) :
    (run_all_tests_aux k cases).1.results = successful_head_results cases := by
  induction cases generalizing k with
  | nil => rfl
  | cons p rest ih =>
    obtain ⟨test_case, env⟩ := p
    rcases htc : run_test_case test_case env with ⟨out, tr⟩
    cases out with
    | ok r =>
      simp [run_all_tests_aux, successful_head_results, htc,
        RunOutcome.results_consResult, ih]
    | raised msg =>
      simp [run_all_tests_aux, successful_head_results, htc, RunOutcome.results]
    | hangs =>
      simp [run_all_tests_aux, successful_head_results, htc, RunOutcome.results]

/-- Counterexample to C2: a test case that raises is silently dropped
from the run report.  With one attempted test case whose
agent-connection phase raises, `run_test_case` runs (the trace shows
the connection attempt and the finally-block disconnect) yet
`self.results` stays empty, so the report carries no entry for the
attempted test case. -/
theorem report_drops_failed_case :
    (run_all_tests [(bookingCase, envConnectFails)]).2 =
      [(0, Ev.connectAgent), (0, Ev.disconnect)] ∧
    (generate_test_report [bookingCase]
      (run_all_tests [(bookingCase, envConnectFails)]).1.results).results = [] :=
  ⟨rfl, rfl⟩

/-- C2 as amended: the run report contains exactly one entry per test
case of the maximal leading run of test cases that return normally, in
submission order; a test case that raises or never completes
contributes no entry, and no test case after it is attempted. -/
theorem results_match_successful_head (cases : List (TestCase × CaseEnv)) :
    (run_all_tests cases).1.results = successful_head_results cases :=
  run_all_tests_aux_results cases 0

/-- Counterexample to C3: when no completion signal ever arrives for a
test case, `run_test_case` does not terminate: the poll loop spins on
the unresolved future (outcome `hangs`), the correlation entry is not
removed (no timeout path exists), nothing is recorded as timed-out, and
the finally-block disconnect is never reached. -/
theorem missing_completion_hangs_example :
    run_test_case bookingCase envNoCallback =
      (Outcome.hangs, [Ev.connectAgent, Ev.callSetup, Ev.registerFuture "CA126"]) := rfl

/-- C3 as amended: if no completion signal ever arrives within (or
after) the configured time limit, the wait for completion does not
terminate: the future poll loop has no timeout, so the test case is
never recorded, the correlation entry is never removed, cleanup never
runs, and execution never proceeds to the next test case. -/
theorem missing_completion_hangs (test_case : TestCase) (env : CaseEnv) (call_sid : String)
    (rest : List (TestCase × CaseEnv))
    (h1 : env.connect_error = none) (h2 : env.call_setup = Except.ok call_sid)
    (h3 : env.completion = none) :
    (run_test_case test_case env).1 = Outcome.hangs ∧
    Ev.disconnect ∉ (run_test_case test_case env).2 ∧
    (run_all_tests ((test_case, env) :: rest)).1 = RunOutcome.hung [] ∧
    (run_all_tests ((test_case, env) :: rest)).2 =
      (run_test_case test_case env).2.map (fun e => (0, e)) := by
  have htc : run_test_case test_case env =
      (Outcome.hangs, [Ev.connectAgent, Ev.callSetup, Ev.registerFuture call_sid]) := by
    simp [run_test_case, h1, h2, h3]
  refine ⟨by rw [htc], by rw [htc]; simp, ?_, ?_⟩
  · simp [run_all_tests, run_all_tests_aux, htc]
  · simp [run_all_tests, run_all_tests_aux, htc]

/-- Witness for the amended C3 at a concrete test case whose callback
never arrives. -/
theorem missing_completion_hangs_witness :
    envNoCallback.connect_error = none ∧
    envNoCallback.call_setup = Except.ok "CA126" ∧
    envNoCallback.completion = none ∧
    (run_test_case bookingCase envNoCallback).1 = Outcome.hangs ∧
    Ev.disconnect ∉ (run_test_case bookingCase envNoCallback).2 ∧
    (run_all_tests [(bookingCase, envNoCallback)]).1 = RunOutcome.hung [] ∧
    (run_all_tests [(bookingCase, envNoCallback)]).2 =
      (run_test_case bookingCase envNoCallback).2.map (fun e => (0, e)) := by
  have h := missing_completion_hangs bookingCase envNoCallback "CA126" [] rfl rfl rfl
  exact ⟨rfl, rfl, rfl, h.1, h.2.1, h.2.2.1, h.2.2.2⟩

/-- Counterexample to C4: an exception during one test case's call
setup aborts the whole run.  With two test cases where the first one's
agent-connection phase raises, the run aborts with that exception, the
second test case never executes (no event of index 1 appears in the
trace), and nothing is stored for either test case. -/
theorem setup_exception_aborts_run_example :
    (run_all_tests [(bookingCase, envConnectFails), (rescheduleCase, envCompletesToo)]).1 =
      RunOutcome.aborted [] "agent connection failed" ∧
    (run_all_tests [(bookingCase, envConnectFails), (rescheduleCase, envCompletesToo)]).2 =
      [(0, Ev.connectAgent), (0, Ev.disconnect)] :=
  ⟨rfl, rfl⟩

/-- C4 as amended: an exception raised during a test case's call setup
is logged and re-raised by `run_test_case`; `run_all_tests` does not
catch it, so the run aborts: the failing test case gets no stored
entry and none of the remaining test cases execute.  (An exception
inside the evaluator, by contrast, is captured inside
`evaluate_test_case` and does not abort the run.) -/
theorem raised_case_aborts_run (test_case : TestCase) (env : CaseEnv) (msg : String)
    (rest : List (TestCase × CaseEnv))
    (h : (run_test_case test_case env).1 = Outcome.raised msg) :
    (run_all_tests ((test_case, env) :: rest)).1 = RunOutcome.aborted [] msg ∧
    (run_all_tests ((test_case, env) :: rest)).2 =
      (run_test_case test_case env).2.map (fun e => (0, e)) := by
  rcases htc : run_test_case test_case env with ⟨out, tr⟩
  rw [htc] at h
  simp only at h
  subst h
  constructor
  · simp [run_all_tests, run_all_tests_aux, htc]
  · simp [run_all_tests, run_all_tests_aux, htc]

/-- Witness for the amended C4 at a concrete two-test-case run whose
first test case raises. -/
theorem raised_case_aborts_run_witness :
    (run_test_case bookingCase envConnectFails).1 =
      Outcome.raised "agent connection failed" ∧
    (run_all_tests [(bookingCase, envConnectFails), (rescheduleCase, envCompletes)]).1 =
      RunOutcome.aborted [] "agent connection failed" ∧
    (run_all_tests [(bookingCase, envConnectFails), (rescheduleCase, envCompletes)]).2 =
      (run_test_case bookingCase envConnectFails).2.map (fun e => (0, e)) := by
  have h := raised_case_aborts_run bookingCase envConnectFails "agent connection failed"
    [(rescheduleCase, envCompletes)] rfl
  exact ⟨rfl, h.1, h.2⟩

/-- C7: when the ngrok tunnel cannot be established,
`TestingServer.setup_ngrok` catches the exception and returns no URL,
and `VoiceTestRunner.__init__` then raises a fatal RuntimeError, so the
whole run aborts with the initialization error before any test case
executes. -/
theorem tunnel_failure_aborts_init (err : String) (cases : List (TestCase × CaseEnv)) :
    init_and_run_all (Except.error err) cases =
      Except.error "Failed to establish ngrok tunnel during initialization. Cannot proceed." :=
  rfl

/-- C8: when the evaluator raises during evaluation, the exception is
caught inside `evaluate_test_case`, which still returns a results
entry whose evaluator results are empty while the transcript is
retained. -/
theorem evaluator_exception_captured (test_case : TestCase) (evaluation_data : EvaluationData)
    (msg : String) (h : test_case.evaluator = some (EvaluatorBehavior.raisesError msg)) :
    (evaluate_test_case test_case evaluation_data).evaluator_results = [] ∧
    (evaluate_test_case test_case evaluation_data).transcript =
      evaluation_data.transcript := by
  simp [evaluate_test_case, h]

/-- Witness for C8 at a concrete test case with a raising evaluator. -/
theorem evaluator_exception_captured_witness :
    failingEvaluatorCase.evaluator = some (EvaluatorBehavior.raisesError "LLM call failed") ∧
    (evaluate_test_case failingEvaluatorCase sampleData).evaluator_results = [] ∧
    (evaluate_test_case failingEvaluatorCase sampleData).transcript =
      sampleData.transcript := by
  have h := evaluator_exception_captured failingEvaluatorCase sampleData "LLM call failed" rfl
  exact ⟨rfl, h.1, h.2⟩

/-- Unfolding of the test loop on a normally returning head case. -/
theorem run_all_tests_aux_ok (k : Nat) (test_case : TestCase) (env : CaseEnv)
    (rest : List (TestCase × CaseEnv)) (res : TestCaseResults) (tr : List Ev)
    (h : run_test_case test_case env = (Outcome.ok res, tr)) :
    run_all_tests_aux k ((test_case, env) :: rest) =
      (RunOutcome.consResult res (run_all_tests_aux (k + 1) rest).1,
        tr.map (fun e => (k, e)) ++ (run_all_tests_aux (k + 1) rest).2) := by
  simp [run_all_tests_aux, h]

/-- Unfolding of the test loop on a raising head case. -/
theorem run_all_tests_aux_raised (k : Nat) (test_case : TestCase) (env : CaseEnv)
    (rest : List (TestCase × CaseEnv)) (msg : String) (tr : List Ev)
    (h : run_test_case test_case env = (Outcome.raised msg, tr)) :
    run_all_tests_aux k ((test_case, env) :: rest) =
      (RunOutcome.aborted [] msg, tr.map (fun e => (k, e))) := by
  simp [run_all_tests_aux, h]

/-- Unfolding of the test loop on a hanging head case. -/
theorem run_all_tests_aux_hangs (k : Nat) (test_case : TestCase) (env : CaseEnv)
    (rest : List (TestCase × CaseEnv)) (tr : List Ev)
    (h : run_test_case test_case env = (Outcome.hangs, tr)) :
    run_all_tests_aux k ((test_case, env) :: rest) =
      (RunOutcome.hung [], tr.map (fun e => (k, e))) := by
  simp [run_all_tests_aux, h]

/-- The trace of a test case that returns normally contains the
finally-block disconnect event. -/
theorem run_test_case_ok_disconnect_mem (test_case : TestCase) (env : CaseEnv)
    (res : TestCaseResults) (tr : List Ev)
    (h : run_test_case test_case env = (Outcome.ok res, tr)) : Ev.disconnect ∈ tr := by
  rcases env with ⟨ce, cs, comp⟩
  cases ce with
  | some msg => simp [run_test_case] at h
  | none =>
    cases cs with
    | error msg => simp [run_test_case] at h
    | ok sid =>
      cases comp with
      | none => simp [run_test_case] at h
      | some d =>
        simp [run_test_case] at h
        rw [← h.2]
        simp

/-- Every event recorded by the test loop started at index `k` is
tagged with an index at least `k`. -/
theorem run_all_tests_aux_tag_ge (cases : List (TestCase × CaseEnv)) :
    ∀ (k r i : Nat) (e : Ev),
      ((run_all_tests_aux k cases).2)[r]? = some (i, e) → k ≤ i := by
  induction cases with
  | nil => intro k r i e h; simp [run_all_tests_aux] at h
  | cons p rest ih =>
    intro k r i e h
    obtain ⟨test_case, env⟩ := p
    rcases htc : run_test_case test_case env with ⟨out, tr⟩
    cases out with
    | ok res =>
      rw [run_all_tests_aux_ok k test_case env rest res tr htc] at h
      by_cases hr : r < (tr.map (fun e => (k, e))).length
      · rw [List.getElem?_append_left hr, List.getElem?_map] at h
        cases hm : tr[r]? with
        | none => rw [hm] at h; simp at h
        | some ev => rw [hm] at h; simp at h; omega
      · rw [List.getElem?_append_right (Nat.le_of_not_lt hr)] at h
        have hge := ih (k + 1) (r - (tr.map (fun e => (k, e))).length) i e h
        omega
    | raised msg =>
      rw [run_all_tests_aux_raised k test_case env rest msg tr htc] at h
      rw [List.getElem?_map] at h
      cases hm : tr[r]? with
      | none => rw [hm] at h; simp at h
      | some ev => rw [hm] at h; simp at h; omega
    | hangs =>
      rw [run_all_tests_aux_hangs k test_case env rest tr htc] at h
      rw [List.getElem?_map] at h
      cases hm : tr[r]? with
      | none => rw [hm] at h; simp at h
      | some ev => rw [hm] at h; simp at h; omega

/-- Any event the test loop records for test case `j + 1` comes
strictly after a disconnect event of test case `j`. -/
theorem run_all_tests_aux_disconnect_before (cases : List (TestCase × CaseEnv)) :
    ∀ (k r j : Nat) (e : Ev),
      ((run_all_tests_aux k cases).2)[r]? = some (j + 1, e) → k ≤ j →
      (j, Ev.disconnect) ∈ ((run_all_tests_aux k cases).2).take r := by
  induction cases with
  | nil => intro k r j e h _; simp [run_all_tests_aux] at h
  | cons p rest ih =>
    intro k r j e h hk
    obtain ⟨test_case, env⟩ := p
    rcases htc : run_test_case test_case env with ⟨out, tr⟩
    cases out with
    | ok res =>
      rw [run_all_tests_aux_ok k test_case env rest res tr htc] at h ⊢
      by_cases hr : r < (tr.map (fun e => (k, e))).length
      · rw [List.getElem?_append_left hr, List.getElem?_map] at h
        cases hm : tr[r]? with
        | none => rw [hm] at h; simp at h
        | some ev => rw [hm] at h; simp at h; omega
      · have hle := Nat.le_of_not_lt hr
        rw [List.getElem?_append_right hle] at h
        rw [List.take_append_eq_append_take, List.take_of_length_le hle]
        by_cases hkj : k + 1 ≤ j
        · have hmem := ih (k + 1) (r - (tr.map (fun e => (k, e))).length) j e h hkj
          exact List.mem_append.mpr (Or.inr hmem)
        · have htag := run_all_tests_aux_tag_ge rest (k + 1)
            (r - (tr.map (fun e => (k, e))).length) (j + 1) e h
          have hjk : j = k := by omega
          subst hjk
          refine List.mem_append.mpr (Or.inl ?_)
          exact List.mem_map.mpr
            ⟨Ev.disconnect, run_test_case_ok_disconnect_mem test_case env res tr htc, rfl⟩
    | raised msg =>
      rw [run_all_tests_aux_raised k test_case env rest msg tr htc] at h
      rw [List.getElem?_map] at h
      cases hm : tr[r]? with
      | none => rw [hm] at h; simp at h
      | some ev => rw [hm] at h; simp at h; omega
    | hangs =>
      rw [run_all_tests_aux_hangs k test_case env rest tr htc] at h
      rw [List.getElem?_map] at h
      cases hm : tr[r]? with
      | none => rw [hm] at h; simp at h
      | some ev => rw [hm] at h; simp at h; omega

/-- The finally block of `run_test_case` makes the disconnect event the
last event of every terminating execution. -/
theorem run_test_case_terminating_getLast (test_case : TestCase) (env : CaseEnv)
    (h : (run_test_case test_case env).1 ≠ Outcome.hangs) :
    ((run_test_case test_case env).2).getLast? = some Ev.disconnect := by
  rcases env with ⟨ce, cs, comp⟩
  cases ce with
  | some msg => rfl
  | none =>
    cases cs with
    | error msg => rfl
    | ok sid =>
      cases comp with
      | none => exact absurd rfl h
      | some d => rfl

/-- C9: call resources are cleaned up in the finally block before
`run_test_case` returns or raises — the disconnect event is the last
event of every terminating execution — and test cases never overlap:
every event the run trace records for test case `i + 1` (its call
request in particular) occurs strictly after a disconnect event of
test case `i`. -/
theorem cleanup_before_next_case :
    (∀ (test_case : TestCase) (env : CaseEnv),
      (run_test_case test_case env).1 ≠ Outcome.hangs →
      ((run_test_case test_case env).2).getLast? = some Ev.disconnect) ∧
    (∀ (cases : List (TestCase × CaseEnv)) (r i : Nat) (e : Ev),
      ((run_all_tests cases).2)[r]? = some (i + 1, e) →
      (i, Ev.disconnect) ∈ ((run_all_tests cases).2).take r) :=
  ⟨run_test_case_terminating_getLast,
    fun cases r i e h =>
      run_all_tests_aux_disconnect_before cases 0 r i e h (Nat.zero_le i)⟩

/-- Witness for C9 at a concrete two-test-case run: the first test
case's trace ends with its disconnect, and the second test case's
first event (index 6 of the run trace) is preceded by a disconnect of
the first. -/
theorem cleanup_before_next_case_witness :
    (run_test_case bookingCase envCompletes).1 ≠ Outcome.hangs ∧
    ((run_test_case bookingCase envCompletes).2).getLast? = some Ev.disconnect ∧
    ((run_all_tests [(bookingCase, envCompletes), (rescheduleCase, envCompletesToo)]).2)[6]? =
      some (0 + 1, Ev.connectAgent) ∧
    (0, Ev.disconnect) ∈
      ((run_all_tests [(bookingCase, envCompletes), (rescheduleCase, envCompletesToo)]).2).take 6 :=
  ⟨by decide, cleanup_before_next_case.1 bookingCase envCompletes (by decide), rfl,
    cleanup_before_next_case.2 [(bookingCase, envCompletes), (rescheduleCase, envCompletesToo)]
      6 0 Ev.connectAgent rfl⟩

/-- The pass and fail components of the evaluation tally fold count
exactly the "pass" and exactly the "fail" verdicts. -/
theorem tally_foldl_spec (l : List EvalResult) :
    ∀ (a b : Nat) (s : List String),
      (l.foldl tally_step (a, b, s)).1 =
        a + (l.filter (fun e => e.result == "pass")).length ∧
      (l.foldl tally_step (a, b, s)).2.1 =
        b + (l.filter (fun e => e.result == "fail")).length := by
  induction l with
  | nil => intro a b s; simp
  | cons e rest ih =>
    intro a b s
    by_cases hp : e.result = "pass"
    · have hstep : tally_step (a, b, s) e =
          (a + 1, b, s ++ [e.name ++ ": " ++ e.result ++ " - " ++ e.reason]) := by
        simp [tally_step, hp]
      obtain ⟨ih1, ih2⟩ := ih (a + 1) b
        (s ++ [e.name ++ ": " ++ e.result ++ " - " ++ e.reason])
      constructor
      · rw [List.foldl_cons, hstep, ih1]
        simp [List.filter_cons, hp]
        omega
      · rw [List.foldl_cons, hstep, ih2]
        simp [List.filter_cons, hp]
    · by_cases hf : e.result = "fail"
      · have hstep : tally_step (a, b, s) e =
            (a, b + 1, s ++ [e.name ++ ": " ++ e.result ++ " - " ++ e.reason]) := by
          simp [tally_step, hp, hf]
        obtain ⟨ih1, ih2⟩ := ih a (b + 1)
          (s ++ [e.name ++ ": " ++ e.result ++ " - " ++ e.reason])
        constructor
        · rw [List.foldl_cons, hstep, ih1]
          simp [List.filter_cons, hp, hf]
        · rw [List.foldl_cons, hstep, ih2]
          simp [List.filter_cons, hp, hf]
          omega
      · have hstep : tally_step (a, b, s) e =
            (a, b, s ++ [e.name ++ ": " ++ e.result ++ " - " ++ e.reason]) := by
          simp [tally_step, hp, hf]
        obtain ⟨ih1, ih2⟩ := ih a b
          (s ++ [e.name ++ ": " ++ e.result ++ " - " ++ e.reason])
        constructor
        · rw [List.foldl_cons, hstep, ih1]
          simp [List.filter_cons, hp]
        · rw [List.foldl_cons, hstep, ih2]
          simp [List.filter_cons, hf]

/-- Verdicts other than "pass" and "fail" count towards neither
filter, so the two filters together cover exactly the pass-or-fail
entries. -/
theorem filter_pass_fail_length (l : List EvalResult) :
    (l.filter (fun e => e.result == "pass")).length +
      (l.filter (fun e => e.result == "fail")).length =
      (l.filter (fun e => e.result == "pass" || e.result == "fail")).length := by
  induction l with
  | nil => rfl
  | cons e rest ih =>
    by_cases hp : e.result = "pass"
    · simp [List.filter_cons, hp, ← ih]
      omega
    · by_cases hf : e.result = "fail"
      · simp [List.filter_cons, hp, hf, ← ih]
        omega
      · simp [List.filter_cons, hp, hf, ← ih]

/-- Rounding the rational zero yields the integer zero. -/
theorem round_half_even_zero : round_half_even 0 = 0 := by
  unfold round_half_even
  norm_num

/-- The fixed two-decimal rendering of zero, the value the guarded
branch of the pass-rate field formats. -/
theorem format_fixed2_zero : format_fixed2 0 = "0.00" := by
  unfold format_fixed2
  rw [show (0 : ℚ) * 100 = 0 by ring, round_half_even_zero]
  rfl

/-- The pass-rate string at zero counts. -/
theorem pass_rate_str_zero : pass_rate_str 0 0 = "0.00%" := by
  unfold pass_rate_str
  rw [if_neg (by norm_num), format_fixed2_zero]
  rfl

/-- C10: in every row written by `save_report`, `pass_count` counts
exactly the evaluator results whose verdict is the string "pass" and
`fail_count` exactly those whose verdict is "fail"; a result with any
other verdict contributes to neither count nor to
`total_evaluations`; and when both counts are zero the `pass_rate`
field is the string "0.00%" — the guarding conditional prevents a
division by zero. -/
theorem save_report_counts_correct (test_cases : List TestCase) (result : TestCaseResults) :
    (save_report_row test_cases result).pass_count =
      (result.evaluator_results.filter (fun e => e.result == "pass")).length ∧
    (save_report_row test_cases result).fail_count =
      (result.evaluator_results.filter (fun e => e.result == "fail")).length ∧
    (save_report_row test_cases result).total_evaluations =
      (save_report_row test_cases result).pass_count +
        (save_report_row test_cases result).fail_count ∧
    (save_report_row test_cases result).total_evaluations =
      (result.evaluator_results.filter
        (fun e => e.result == "pass" || e.result == "fail")).length ∧
    ((save_report_row test_cases result).pass_count +
        (save_report_row test_cases result).fail_count = 0 →
      (save_report_row test_cases result).pass_rate = "0.00%") := by
  obtain ⟨h1, h2⟩ := tally_foldl_spec result.evaluator_results 0 0 []
  rw [Nat.zero_add] at h1 h2
  refine ⟨h1, h2, rfl, ?_, ?_⟩
  · show (result.evaluator_results.foldl tally_step (0, 0, [])).1 +
      (result.evaluator_results.foldl tally_step (0, 0, [])).2.1 = _
    rw [h1, h2]
    exact filter_pass_fail_length result.evaluator_results
  · intro h0
    have h0' : (result.evaluator_results.foldl tally_step (0, 0, [])).1 +
        (result.evaluator_results.foldl tally_step (0, 0, [])).2.1 = 0 := h0
    have ha : (result.evaluator_results.foldl tally_step (0, 0, [])).1 = 0 := by omega
    have hb : (result.evaluator_results.foldl tally_step (0, 0, [])).2.1 = 0 := by omega
    show pass_rate_str (result.evaluator_results.foldl tally_step (0, 0, [])).1
      (result.evaluator_results.foldl tally_step (0, 0, [])).2.1 = "0.00%"
    rw [ha, hb]
    exact pass_rate_str_zero

/-- Witness for C10 at a concrete result whose only verdict is neither
"pass" nor "fail": both counts are zero and the pass rate renders as
the literal string. -/
theorem save_report_counts_correct_witness :
    (save_report_row [] otherVerdictResult).pass_count = 0 ∧
    (save_report_row [] otherVerdictResult).fail_count = 0 ∧
    (save_report_row [] otherVerdictResult).total_evaluations = 0 ∧
    (save_report_row [] otherVerdictResult).pass_rate = "0.00%" := by
  have h := save_report_counts_correct [] otherVerdictResult
  exact ⟨h.1, h.2.1, h.2.2.1, h.2.2.2.2 (by decide)⟩

end VoxHog
